import Mathlib

/-!
# Verification of the PyLips face-control coordinator

Shallow embedding of `src/pylips-service/pylips_service.py` (class
`PyLipsService`).  Outcomes of external calls (socket probes, subprocess
spawn, the PyLips `RobotFace` constructor, backend speech calls, Socket.IO
reconnects) are supplied as explicit environment records, so each Python
method becomes a total Lean function from state and environment to state
and result.  A Python call that may raise is modelled by a Boolean (or a
small inductive) in the environment saying whether it raises; every
`try/except` of the source then becomes the corresponding branch.  Totality
of the Lean functions mirrors the source's catch-all error handling: no
exception escapes the modelled methods.
-/

namespace PyLips

/-- A `RobotFace` instance as the coordinator sees it: whether it exposes a
Socket.IO handle with a `connected` attribute (`hasattr(face, 'io')` and
`hasattr(face.io, 'connected')`), the current value of that flag, and the
configuration the constructor received. -/
structure FaceSession where
  has_io : Bool
  io_connected : Bool
  voice_id : Option String
  tts_method : String
  deriving Repr, DecidableEq

/-- The mutable fields of the `PyLipsService` singleton, plus the
process-level availability constants fixed at import time
(`PYLIPS_AVAILABLE`, presence of the SAPI and pyttsx3 backends). -/
structure ServiceState where
  face : Option FaceSession
  face_server_process : Option Unit
  face_server_running : Bool
  current_voice_id : Option String
  tts_method : String
  sapi_tts : Bool
  fallback_tts : Bool
  sapi_voice : Option String
  pylips_available : Bool
  deriving Repr, DecidableEq

/-- `PyLipsService.__init__`: no face, no subprocess, default config
`(None, "system")`; the SAPI backend exists when win32 is importable and
`Dispatch` does not raise; pyttsx3 is initialised only when available, the
SAPI engine is absent and `pyttsx3.init()` does not raise. -/
def initState (pylips win32 dispatch_ok pyttsx3 fb_init_ok : Bool) : ServiceState :=
  let sapi := win32 && dispatch_ok
  { face := none
    face_server_process := none
    face_server_running := false
    current_voice_id := none
    tts_method := "system"
    sapi_tts := sapi
    fallback_tts := pyttsx3 && !sapi && fb_init_ok
    sapi_voice := none
    pylips_available := pylips }

/-- Outcome of one iteration of the 10-round startup poll in
`start_face_server`: the spawned process has exited, port 8000 has become
reachable, or neither yet. -/
inductive PollOutcome where
  | exited
  | portOpen
  | waiting
  deriving Repr, DecidableEq

/-- External-world outcomes for one `start_face_server` call. -/
structure StartEnv where
  /-- the initial `socket` probe raises -/
  probe_raises : Bool
  /-- the initial probe finds port 8000 already occupied (`connect_ex == 0`) -/
  port_occupied : Bool
  /-- `subprocess.Popen` raises -/
  spawn_raises : Bool
  /-- outcomes of the (at most 10) polling iterations -/
  poll : List PollOutcome
  deriving Repr

/-- The `for i in range(10)` polling loop of `start_face_server`: a poll that
sees the process exited logs and returns failure (clearing the running
flag); a poll that finds the port open marks running and returns success;
exhausting the bound returns failure with the process left running. -/
def pollLoop (s : ServiceState) : List PollOutcome → ServiceState × Bool
  | [] => (s, false)
  | PollOutcome.exited :: _ => ({ s with face_server_running := false }, false)
  | PollOutcome.portOpen :: _ => ({ s with face_server_running := true }, true)
  | PollOutcome.waiting :: rest => pollLoop s rest

/-- `PyLipsService.start_face_server`.  Already running ⇒ immediate success.
Otherwise probe port 8000: occupied ⇒ mark running without spawning; else
spawn the subprocess and poll up to 10 times.  Any exception is caught and
converted to a `False` return. -/
def start_face_server (s : ServiceState) (env : StartEnv) : ServiceState × Bool :=
  if s.face_server_running then (s, true)
  else if env.probe_raises then (s, false)
  else if env.port_occupied then ({ s with face_server_running := true }, true)
  else if env.spawn_raises then (s, false)
  else
    pollLoop { s with face_server_process := some () }
      ((env.poll ++ List.replicate 10 PollOutcome.waiting).take 10)

/-- `PyLipsService.stop_face_server`: only when a subprocess handle exists
does it terminate the process, clear the handle and clear the running
flag; with no handle it does nothing. -/
def stop_face_server (s : ServiceState) : ServiceState :=
  match s.face_server_process with
  | some _ =>
      { s with face_server_process := none, face_server_running := false }
  | none => s

/-- Outcome of one `RobotFace(...)`-construction attempt inside
`initialize_face`: the constructor raises, or it yields a session with the
given `hasattr(face, 'io')` shape and (after the 2-second grace wait)
`io.connected` value. -/
inductive AttemptOutcome where
  | raises
  | session (has_io : Bool) (connected : Bool)
  deriving Repr, DecidableEq

/-- External-world outcomes for one `initialize_face` call. -/
structure InitEnv where
  /-- the SAPI voice lookup finds a token matching `voice_id` and applying
  it does not raise -/
  sapi_voice_applied : Bool
  startEnv : StartEnv
  a1 : AttemptOutcome
  a2 : AttemptOutcome
  a3 : AttemptOutcome
  deriving Repr

/-- The `for attempt in range(3)` retry loop of `initialize_face`, over the
list of attempt outcomes.  A constructor success assigns `self.face`; with
no `io` attribute, or with `io.connected` true after the grace wait, the
loop returns.  A not-yet-connected session falls through to the next
attempt (the assigned face is kept).  A raising attempt continues (after
the 2-second backoff) unless it is the last one, in which case the
re-raised exception is caught by the outer handler; either way the state is
the loop's current state and the overall result is `True`. -/
def initAttempts (s : ServiceState) (v : Option String) (m : String) :
    List AttemptOutcome → ServiceState
  | [] => s
  | AttemptOutcome.raises :: rest => initAttempts s v m rest
  | AttemptOutcome.session h c :: rest =>
      if h && !c then
        initAttempts { s with face := some ⟨h, c, v, m⟩ } v m rest
      else
        { s with face := some ⟨h, c, v, m⟩ }

/-- First phase of `initialize_face`: the unconditional
`current_voice_id`/`tts_method` update, followed by the SAPI voice lookup
(performed when the SAPI engine exists and a voice id is given; a lookup
that finds the token and does not raise updates the engine's voice). -/
def initConfig (s : ServiceState) (v : Option String) (m : String)
    (applied : Bool) : ServiceState :=
  if s.sapi_tts && v.isSome && applied then
    { s with current_voice_id := v, tts_method := m, sapi_voice := v }
  else
    { s with current_voice_id := v, tts_method := m }

/-- `PyLipsService.initialize_face(voice_id, tts_method)`.  Updates
`current_voice_id`/`tts_method` first; applies the voice to the SAPI engine
when present (lookup failures logged, not fatal); returns `True` at once if
`RobotFace` is `None` (PyLips unavailable); ensures the face server is
running, returning `True` even if it cannot be started; then runs the
3-attempt session loop, returning `True` on every path. -/
def initialize_face (s : ServiceState) (v : Option String) (m : String)
    (env : InitEnv) : ServiceState × Bool :=
  if !(initConfig s v m env.sapi_voice_applied).pylips_available then
    (initConfig s v m env.sapi_voice_applied, true)
  else if (initConfig s v m env.sapi_voice_applied).face_server_running then
    (initAttempts (initConfig s v m env.sapi_voice_applied) v m
      [env.a1, env.a2, env.a3], true)
  else if !(start_face_server (initConfig s v m env.sapi_voice_applied)
      env.startEnv).2 then
    ((start_face_server (initConfig s v m env.sapi_voice_applied) env.startEnv).1,
      true)
  else
    (initAttempts
      (start_face_server (initConfig s v m env.sapi_voice_applied) env.startEnv).1
      v m [env.a1, env.a2, env.a3], true)

/-- The three TTS backends `speak` can invoke, in source order. -/
inductive Backend where
  | animatedFace
  | sapi
  | fallback
  deriving Repr, DecidableEq

/-- External-world outcomes for one `speak` call: whether each backend's
invocation, if reached, raises. -/
structure SpeakEnv where
  face_say_ok : Bool
  sapi_ok : Bool
  fallback_ok : Bool
  deriving Repr, DecidableEq

/-- Third rung of `speak`: the pyttsx3 fallback.  Synchronous mode says and
waits under the TTS lock; asynchronous mode starts a daemon thread with a
one-shot engine.  An exception in the reached branch is caught and falls
out to the final `return False`. -/
def speakFallback (s : ServiceState) (env : SpeakEnv) (tr : List Backend) :
    Bool × List Backend :=
  if s.fallback_tts then (env.fallback_ok, tr ++ [Backend.fallback])
  else (false, tr)

/-- Second rung of `speak`: the Windows SAPI engine (blocking in
synchronous mode, native async otherwise).  On an exception, falls through
to the pyttsx3 fallback. -/
def speakSapi (s : ServiceState) (env : SpeakEnv) (tr : List Backend) :
    Bool × List Backend :=
  if s.sapi_tts then
    if env.sapi_ok then (true, tr ++ [Backend.sapi])
    else speakFallback s env (tr ++ [Backend.sapi])
  else speakFallback s env tr

/-- `PyLipsService.speak(text, wait)`.  Returns the Boolean result together
with the list of backends actually invoked, in invocation order.  PyLips
first when a face session exists; on its exception, fall through to SAPI,
then to pyttsx3; `False` only when every rung has been exhausted.  The
`wait` flag selects the synchronous or asynchronous variant inside each
backend and does not alter the fall-through structure. -/
def speak (s : ServiceState) (wait : Bool) (env : SpeakEnv) :
    Bool × List Backend :=
  match s.face with
  | some _ =>
      if env.face_say_ok then (true, [Backend.animatedFace])
      else speakSapi s env [Backend.animatedFace]
  | none => speakSapi s env []

/-- The predefined expression table of `set_expression`: name ↦ action-unit
intensities. -/
def expressions : List (String × List (String × ℚ)) :=
  [("happy", [("AU6l", 8/10), ("AU6r", 8/10), ("AU12l", 6/10), ("AU12r", 6/10)]),
   ("sad", [("AU1l", 5/10), ("AU1r", 5/10), ("AU4l", 4/10), ("AU4r", 4/10),
            ("AU15l", 3/10), ("AU15r", 3/10)]),
   ("surprised", [("AU1l", 8/10), ("AU1r", 8/10), ("AU2l", 6/10), ("AU2r", 6/10),
                  ("AU5l", 7/10), ("AU5r", 7/10)]),
   ("angry", [("AU4l", 8/10), ("AU4r", 8/10), ("AU7l", 6/10), ("AU7r", 6/10),
              ("AU23l", 4/10), ("AU23r", 4/10)]),
   ("neutral", [])]

/-- Result of a `set_expression` call: the Boolean return value and how many
times `face.express` was invoked. -/
structure ExprResult where
  ok : Bool
  expressCalls : Nat
  deriving Repr, DecidableEq

/-- `PyLipsService.set_expression(expression_name, duration)`.  With a face
session: a name in the table invokes `face.express`; if that raises, the
exception is caught and control falls to the fallback check; an unknown
name returns `False` directly.  Without a face session, or after a caught
`express` failure: if `PYLIPS_AVAILABLE` is false, log-only mode returns
`True`; otherwise `False`. -/
def set_expression (s : ServiceState) (name : String) (duration : Nat)
    (express_raises : Bool) : ExprResult :=
  match s.face with
  | some _ =>
      match (expressions.map Prod.fst).contains name with
      | true =>
          if express_raises then
            if !s.pylips_available then ⟨true, 1⟩ else ⟨false, 1⟩
          else ⟨true, 1⟩
      | false => ⟨false, 0⟩
  | none =>
      if !s.pylips_available then ⟨true, 0⟩ else ⟨false, 0⟩

/-- Outcome of one `face.set_appearance(config)` invocation: success, an
exception whose message matches the connection-fault patterns
("not a connected namespace" / "connection"), or any other exception. -/
inductive ApplyOutcome where
  | ok
  | connError
  | otherError
  deriving Repr, DecidableEq

/-- External-world outcomes for one `set_appearance` call. -/
structure AppearanceEnv where
  /-- the pre-apply `face.io.connect()` raises -/
  reconnect_raises : Bool
  /-- outcome of the first `face.set_appearance(config)` -/
  apply1 : ApplyOutcome
  /-- environment for the recovery `initialize_face` call -/
  initEnv : InitEnv
  /-- the post-reinitialisation `face.set_appearance(config)` does not raise -/
  apply2_ok : Bool
  deriving Repr

/-- Result of a `set_appearance` call: final state, Boolean return value,
number of pre-apply `io.connect()` attempts, and number of
`face.set_appearance` invocations. -/
structure AppearanceResult where
  state : ServiceState
  ok : Bool
  preConnects : Nat
  applyCalls : Nat

/-- Apply phase of `set_appearance`: the first apply either succeeds, fails
with a non-connection error (caught, `False`), or fails with a
connection-fault message, in which case `initialize_face` is re-run with
the current configuration and the apply is retried once on the refreshed
face if one exists. -/
def applyPhase (s : ServiceState) (env : AppearanceEnv) (pc : Nat) :
    AppearanceResult :=
  match env.apply1 with
  | ApplyOutcome.ok => ⟨s, true, pc, 1⟩
  | ApplyOutcome.otherError => ⟨s, false, pc, 1⟩
  | ApplyOutcome.connError =>
      match (initialize_face s s.current_voice_id s.tts_method env.initEnv).1.face with
      | some _ =>
          if env.apply2_ok then
            ⟨(initialize_face s s.current_voice_id s.tts_method env.initEnv).1,
              true, pc, 2⟩
          else
            ⟨(initialize_face s s.current_voice_id s.tts_method env.initEnv).1,
              false, pc, 2⟩
      | none =>
          ⟨(initialize_face s s.current_voice_id s.tts_method env.initEnv).1,
            false, pc, 1⟩

/-- `PyLipsService.set_appearance(appearance_config)`.  No face session ⇒
`False`.  If the session exposes a connectivity flag and it reads
disconnected, one `io.connect()` is attempted: a raise there returns
`False` before any apply; a success proceeds to the apply phase. -/
def set_appearance (s : ServiceState) (env : AppearanceEnv) :
    AppearanceResult :=
  match s.face with
  | none => ⟨s, false, 0, 0⟩
  | some f =>
      if f.has_io && !f.io_connected then
        if env.reconnect_raises then ⟨s, false, 1, 0⟩
        else applyPhase { s with face := some { f with io_connected := true } } env 1
      else applyPhase s env 0

/-- `/stop` route handler: `stop_face_server()` followed by `face = None`. -/
def route_stop (s : ServiceState) : ServiceState :=
  { stop_face_server s with face := none }

/-- States the coordinator can reach from a fresh `PyLipsService()` by the
state-mutating operations (the HTTP routes call exactly these). -/
inductive Reachable : ServiceState → Prop where
  | init (pylips win32 dispatch_ok pyttsx3 fb_init_ok : Bool) :
      Reachable (initState pylips win32 dispatch_ok pyttsx3 fb_init_ok)
  | start {s} (env : StartEnv) :
      Reachable s → Reachable (start_face_server s env).1
  | stop {s} : Reachable s → Reachable (stop_face_server s)
  | initFace {s} (v : Option String) (m : String) (env : InitEnv) :
      Reachable s → Reachable (initialize_face s v m env).1
  | setApp {s} (env : AppearanceEnv) :
      Reachable s → Reachable (set_appearance s env).state
  | routeStop {s} : Reachable s → Reachable (route_stop s)

/-! ## Helper lemmas -/

theorem pollLoop_fields (l : List PollOutcome) (s : ServiceState) :
    (pollLoop s l).1.face = s.face ∧
    (pollLoop s l).1.pylips_available = s.pylips_available ∧
    (pollLoop s l).1.current_voice_id = s.current_voice_id ∧
    (pollLoop s l).1.tts_method = s.tts_method := by
  induction l generalizing s with
  | nil => exact ⟨rfl, rfl, rfl, rfl⟩
  | cons o rest ih =>
    cases o with
    | exited => exact ⟨rfl, rfl, rfl, rfl⟩
    | portOpen => exact ⟨rfl, rfl, rfl, rfl⟩
    | waiting => exact ih s

theorem start_fields (s : ServiceState) (env : StartEnv) :
    (start_face_server s env).1.face = s.face ∧
    (start_face_server s env).1.pylips_available = s.pylips_available ∧
    (start_face_server s env).1.current_voice_id = s.current_voice_id ∧
    (start_face_server s env).1.tts_method = s.tts_method := by
  unfold start_face_server
  split
  · exact ⟨rfl, rfl, rfl, rfl⟩
  · split
    · exact ⟨rfl, rfl, rfl, rfl⟩
    · split
      · exact ⟨rfl, rfl, rfl, rfl⟩
      · split
        · exact ⟨rfl, rfl, rfl, rfl⟩
        · exact pollLoop_fields _ _

theorem initAttempts_fields (v : Option String) (m : String)
    (l : List AttemptOutcome) (s : ServiceState) :
    (initAttempts s v m l).pylips_available = s.pylips_available ∧
    (initAttempts s v m l).current_voice_id = s.current_voice_id ∧
    (initAttempts s v m l).tts_method = s.tts_method ∧
    ((initAttempts s v m l).face = s.face ∨
      ∃ h c, (initAttempts s v m l).face = some ⟨h, c, v, m⟩) := by
  induction l generalizing s with
  | nil => exact ⟨rfl, rfl, rfl, Or.inl rfl⟩
  | cons o rest ih =>
    cases o with
    | raises => exact ih s
    | session h c =>
      simp only [initAttempts]
      split
      · have := ih { s with face := some ⟨h, c, v, m⟩ }
        refine ⟨this.1, this.2.1, this.2.2.1, ?_⟩
        rcases this.2.2.2 with heq | ⟨h', c', heq⟩
        · exact Or.inr ⟨h, c, heq⟩
        · exact Or.inr ⟨h', c', heq⟩
      · exact ⟨rfl, rfl, rfl, Or.inr ⟨h, c, rfl⟩⟩

theorem initConfig_fields (s : ServiceState) (v : Option String) (m : String)
    (a : Bool) :
    (initConfig s v m a).pylips_available = s.pylips_available ∧
    (initConfig s v m a).current_voice_id = v ∧
    (initConfig s v m a).tts_method = m ∧
    (initConfig s v m a).face = s.face := by
  unfold initConfig
  split <;> exact ⟨rfl, rfl, rfl, rfl⟩

theorem initialize_face_fields (s : ServiceState) (v : Option String)
    (m : String) (env : InitEnv) :
    (initialize_face s v m env).1.pylips_available = s.pylips_available ∧
    (initialize_face s v m env).1.current_voice_id = v ∧
    (initialize_face s v m env).1.tts_method = m ∧
    ((initialize_face s v m env).1.face = s.face ∨
      ∃ h c, (initialize_face s v m env).1.face = some ⟨h, c, v, m⟩) := by
  have hc := initConfig_fields s v m env.sapi_voice_applied
  have hs := start_fields (initConfig s v m env.sapi_voice_applied) env.startEnv
  have ha := initAttempts_fields v m [env.a1, env.a2, env.a3]
    (initConfig s v m env.sapi_voice_applied)
  have ha2 := initAttempts_fields v m [env.a1, env.a2, env.a3]
    (start_face_server (initConfig s v m env.sapi_voice_applied) env.startEnv).1
  unfold initialize_face
  split
  · exact ⟨hc.1, hc.2.1, hc.2.2.1, Or.inl hc.2.2.2⟩
  · split
    · refine ⟨ha.1.trans hc.1, ha.2.1.trans hc.2.1, ha.2.2.1.trans hc.2.2.1, ?_⟩
      rcases ha.2.2.2 with heq | ⟨h', c', heq⟩
      · exact Or.inl (heq.trans hc.2.2.2)
      · exact Or.inr ⟨h', c', heq⟩
    · split
      · exact ⟨hs.2.1.trans hc.1, hs.2.2.1.trans hc.2.1,
          hs.2.2.2.trans hc.2.2.1, Or.inl (hs.1.trans hc.2.2.2)⟩
      · refine ⟨ha2.1.trans (hs.2.1.trans hc.1),
          ha2.2.1.trans (hs.2.2.1.trans hc.2.1),
          ha2.2.2.1.trans (hs.2.2.2.trans hc.2.2.1), ?_⟩
        rcases ha2.2.2.2 with heq | ⟨h', c', heq⟩
        · exact Or.inl (heq.trans (hs.1.trans hc.2.2.2))
        · exact Or.inr ⟨h', c', heq⟩

theorem stop_fields (s : ServiceState) :
    (stop_face_server s).face = s.face ∧
    (stop_face_server s).pylips_available = s.pylips_available := by
  unfold stop_face_server
  split <;> exact ⟨rfl, rfl⟩

theorem initialize_face_of_unavailable (s : ServiceState) (v : Option String)
    (m : String) (env : InitEnv) (h : s.pylips_available = false) :
    (initialize_face s v m env).1.face = s.face := by
  have hc := initConfig_fields s v m env.sapi_voice_applied
  unfold initialize_face
  rw [if_pos]
  · exact hc.2.2.2
  · rw [hc.1, h]
    rfl

theorem applyPhase_fields (s : ServiceState) (env : AppearanceEnv) (pc : Nat) :
    (applyPhase s env pc).state.pylips_available = s.pylips_available ∧
    (applyPhase s env pc).preConnects = pc := by
  have hi := (initialize_face_fields s s.current_voice_id s.tts_method env.initEnv).1
  unfold applyPhase
  split
  · exact ⟨rfl, rfl⟩
  · exact ⟨rfl, rfl⟩
  · split
    · split <;> exact ⟨hi, rfl⟩
    · exact ⟨hi, rfl⟩

theorem set_appearance_avail (s : ServiceState) (env : AppearanceEnv) :
    (set_appearance s env).state.pylips_available = s.pylips_available := by
  unfold set_appearance
  split
  · rfl
  · split
    · split
      · rfl
      · exact (applyPhase_fields _ env 1).1
    · exact (applyPhase_fields s env 0).1

/-- Reachability invariant behind the degraded mode: when the PyLips import
failed at process level, no `RobotFace` can ever be constructed, so no
reachable state holds a face session. -/
theorem reachable_no_face_of_unavailable {s : ServiceState}
    (hr : Reachable s) : s.pylips_available = false → s.face = none := by
  induction hr with
  | init p w d py fb => exact fun _ => rfl
  | start env hr ih =>
    rename_i t
    intro hu
    have hp : t.pylips_available = false :=
      ((start_fields t env).2.1).symm.trans hu
    rw [(start_fields t env).1]
    exact ih hp
  | stop hr ih =>
    rename_i t
    intro hu
    have hp : t.pylips_available = false := ((stop_fields t).2).symm.trans hu
    rw [(stop_fields t).1]
    exact ih hp
  | initFace v m env hr ih =>
    rename_i t
    intro hu
    have hp : t.pylips_available = false :=
      ((initialize_face_fields t v m env).1).symm.trans hu
    rw [initialize_face_of_unavailable t v m env hp]
    exact ih hp
  | setApp env hr ih =>
    rename_i t
    intro hu
    have hp : t.pylips_available = false :=
      (set_appearance_avail t env).symm.trans hu
    have hface := ih hp
    have hres : set_appearance t env = ⟨t, false, 0, 0⟩ := by
      unfold set_appearance
      rw [hface]
    rw [hres]
    exact hface
  | routeStop hr ih => exact fun _ => rfl

theorem speakFallback_fst (s : ServiceState) (env : SpeakEnv)
    (tr : List Backend) :
    (speakFallback s env tr).1 = (s.fallback_tts && env.fallback_ok) := by
  unfold speakFallback
  cases h : s.fallback_tts <;> simp [h]

theorem speakSapi_fst (s : ServiceState) (env : SpeakEnv) (tr : List Backend) :
    (speakSapi s env tr).1 =
      (s.sapi_tts && env.sapi_ok || s.fallback_tts && env.fallback_ok) := by
  unfold speakSapi
  cases h : s.sapi_tts <;> cases h2 : env.sapi_ok <;>
    simp [h, h2, speakFallback_fst]

theorem speak_fst (s : ServiceState) (w : Bool) (env : SpeakEnv) :
    (speak s w env).1 =
      (s.face.isSome && env.face_say_ok ||
        s.sapi_tts && env.sapi_ok || s.fallback_tts && env.fallback_ok) := by
  unfold speak
  cases hf : s.face <;> cases h : env.face_say_ok <;>
    simp [hf, h, speakSapi_fst]

theorem speakSapi_mem_sapi (s : ServiceState) (env : SpeakEnv)
    (tr : List Backend) (h : s.sapi_tts = true) :
    Backend.sapi ∈ (speakSapi s env tr).2 := by
  cases ho : env.sapi_ok <;> cases hf : s.fallback_tts <;>
    simp [speakSapi, speakFallback, h, ho, hf]

theorem speakSapi_fallback_last (s : ServiceState) (env : SpeakEnv)
    (tr : List Backend) (h : s.sapi_tts = true)
    (htr : Backend.fallback ∉ tr)
    (hm : Backend.fallback ∈ (speakSapi s env tr).2) :
    env.sapi_ok = false ∧
      (speakSapi s env tr).2 = tr ++ [Backend.sapi, Backend.fallback] := by
  cases ho : env.sapi_ok with
  | true =>
    exfalso
    simp [speakSapi, speakFallback, h, ho] at hm
    exact htr hm
  | false =>
    refine ⟨rfl, ?_⟩
    cases hf : s.fallback_tts with
    | true => simp [speakSapi, speakFallback, h, ho, hf]
    | false =>
      exfalso
      simp [speakSapi, speakFallback, h, ho, hf] at hm
      exact htr hm

/-! ## Concrete states used as witnesses -/

/-- A session whose Socket.IO connectivity check reads connected. -/
def connectedFace : FaceSession := ⟨true, true, none, "system"⟩

/-- A session whose Socket.IO connectivity check reads disconnected. -/
def disconnectedFace : FaceSession := ⟨true, false, none, "system"⟩

/-- Fresh service with PyLips importable and the SAPI engine initialised. -/
def baseState : ServiceState := initState true true true true true

/-- `baseState` after a connected face session has been established. -/
def faceState : ServiceState := { baseState with face := some connectedFace }

/-- `baseState` with the pyttsx3 fallback engine also present. -/
def fallbackState : ServiceState := { baseState with fallback_tts := true }

/-- `baseState` with the face server marked running (subprocess spawned). -/
def handleState : ServiceState :=
  { baseState with face_server_process := some (), face_server_running := true }

/-- Fresh service in fully degraded mode: PyLips import failed and no TTS
engine could be initialised. -/
def unavailableState : ServiceState := initState false false false false false

/-- `baseState` holding a session that reads disconnected. -/
def appearanceState : ServiceState :=
  { baseState with face := some disconnectedFace }

/-- An `initialize_face` environment in which the server start probe fails
and every session attempt raises. -/
def trivialInitEnv : InitEnv :=
  ⟨false, ⟨false, false, false, []⟩, AttemptOutcome.raises,
    AttemptOutcome.raises, AttemptOutcome.raises⟩

/-- The state the coordinator reaches when `start_face_server` finds port
8000 already occupied by an externally started server: running flag set,
no subprocess handle. -/
def externallyDetectedState : ServiceState :=
  (start_face_server (initState true false false false false)
    ⟨false, true, false, []⟩).1

/-! ## Claim theorems -/

/-- Claim C1: for every input `(voiceId, ttsMethod)` and every
coordinator/backend state and environment, `initialize_face` returns
success (`true`): a missing PyLips library, a failed subprocess start, and
three failed or raising session-construction attempts all degrade to a
returned `true`, since the configuration was applied. -/
theorem initialize_face_never_fails (s : ServiceState) (v : Option String)
    (m : String) (env : InitEnv) : (initialize_face s v m env).2 = true := by
  unfold initialize_face
  split
  · rfl
  · split
    · rfl
    · split <;> rfl

/-- Claim C2: `speak` tries backends in strict priority order with first
success winning: with a face session whose `say` succeeds, the result is
success and the invocation trace is exactly the animated-face backend (SAPI
and the fallback are never invoked); and whenever the fallback is invoked
with the SAPI engine present, the SAPI call came immediately before it and
failed — so the platform API is tried before the fallback when the
animated-face backend is absent or errors. -/
theorem speak_priority_order (s : ServiceState) (w : Bool) (env : SpeakEnv) :
    (∀ f, s.face = some f → env.face_say_ok = true →
      speak s w env = (true, [Backend.animatedFace])) ∧
    ((s.face = none ∨ env.face_say_ok = false) → s.sapi_tts = true →
      Backend.sapi ∈ (speak s w env).2) ∧
    (s.sapi_tts = true → Backend.fallback ∈ (speak s w env).2 →
      env.sapi_ok = false ∧
        ∃ l, (speak s w env).2 = l ++ [Backend.sapi, Backend.fallback]) := by
  refine ⟨?_, ?_, ?_⟩
  · intro f hf hok
    simp [speak, hf, hok]
  · intro hfail hs
    rcases hfail with hf | hok
    · rw [show speak s w env = speakSapi s env [] from by simp [speak, hf]]
      exact speakSapi_mem_sapi _ _ _ hs
    · cases hf : s.face with
      | none =>
        rw [show speak s w env = speakSapi s env [] from by simp [speak, hf]]
        exact speakSapi_mem_sapi _ _ _ hs
      | some f =>
        rw [show speak s w env = speakSapi s env [Backend.animatedFace] from by
          simp [speak, hf, hok]]
        exact speakSapi_mem_sapi _ _ _ hs
  · intro hs hm
    cases hf : s.face with
    | none =>
      have heq : speak s w env = speakSapi s env [] := by simp [speak, hf]
      rw [heq] at hm ⊢
      have h2 := speakSapi_fallback_last s env [] hs (by decide) hm
      exact ⟨h2.1, ⟨[], h2.2⟩⟩
    | some f =>
      cases hok : env.face_say_ok with
      | true =>
        have heq : speak s w env = (true, [Backend.animatedFace]) := by
          simp [speak, hf, hok]
        rw [heq] at hm
        exact absurd hm (by decide)
      | false =>
        have heq : speak s w env = speakSapi s env [Backend.animatedFace] := by
          simp [speak, hf, hok]
        rw [heq] at hm ⊢
        have h2 := speakSapi_fallback_last s env [Backend.animatedFace] hs
          (by decide) hm
        exact ⟨h2.1, ⟨[Backend.animatedFace], h2.2⟩⟩

/-- Witness for C2: with all three backends available and a working face
session, a call invokes exactly the animated-face backend; with the face
absent and SAPI raising, the trace ends with SAPI immediately followed by
the fallback. -/
theorem speak_priority_order_witness :
    speak faceState true ⟨true, true, true⟩ = (true, [Backend.animatedFace]) ∧
    Backend.sapi ∈ (speak fallbackState true ⟨false, false, true⟩).2 ∧
    ((⟨false, false, true⟩ : SpeakEnv).sapi_ok = false ∧
      ∃ l, (speak fallbackState true ⟨false, false, true⟩).2 =
        l ++ [Backend.sapi, Backend.fallback]) :=
  ⟨(speak_priority_order faceState true ⟨true, true, true⟩).1 connectedFace
      rfl rfl,
   (speak_priority_order fallbackState true ⟨false, false, true⟩).2.1
      (Or.inl rfl) rfl,
   (speak_priority_order fallbackState true ⟨false, false, true⟩).2.2
      rfl (by decide)⟩

/-- Claim C3: `speak` returns `false` exactly when no backend succeeds —
every present backend raised, or no backend is present.  The backend calls
are the only fallible operations in `speak` and each is wrapped in a
`try/except`, which the embedding reflects by `speak` being a total
function into `Bool`: no exception propagates to the caller. -/
theorem speak_false_iff_all_fail (s : ServiceState) (w : Bool)
    (env : SpeakEnv) :
    ((speak s w env).1 = false ↔
      ((s.face = none ∨ env.face_say_ok = false) ∧
       (s.sapi_tts = false ∨ env.sapi_ok = false) ∧
       (s.fallback_tts = false ∨ env.fallback_ok = false))) := by
  rw [speak_fst]
  cases hf : s.face <;> cases h1 : env.face_say_ok <;> cases h2 : s.sapi_tts <;>
    cases h3 : env.sapi_ok <;> cases h4 : s.fallback_tts <;>
    cases h5 : env.fallback_ok <;> simp [hf, h1, h2, h3, h4, h5]

/-- Claim C4: after every `initialize_face (voiceId, ttsMethod)` call the
configuration fields equal `(voiceId, ttsMethod)`, whether the session
attempt succeeded, failed or the subsystem was absent; and the update
happened before any session attempt — any face session the call installed
was constructed with the new `(voiceId, ttsMethod)`. -/
theorem initialize_face_updates_config (s : ServiceState) (v : Option String)
    (m : String) (env : InitEnv) :
    (initialize_face s v m env).1.current_voice_id = v ∧
    (initialize_face s v m env).1.tts_method = m ∧
    ((initialize_face s v m env).1.face = s.face ∨
      ∃ h c, (initialize_face s v m env).1.face = some ⟨h, c, v, m⟩) :=
  ⟨(initialize_face_fields s v m env).2.1,
   (initialize_face_fields s v m env).2.2.1,
   (initialize_face_fields s v m env).2.2.2⟩

/-- Counterexample to claim C5 as stated: the state reached when
`start_face_server` found port 8000 occupied by an externally started
server is reachable, has the running flag set with no subprocess handle,
and after an explicit `stop_face_server` the running flag is still set —
the coordinator is not in the Absent terminal state. -/
theorem stop_after_external_server_counterexample :
    Reachable externallyDetectedState ∧
    externallyDetectedState.face_server_process = none ∧
    externallyDetectedState.face_server_running = true ∧
    (stop_face_server externallyDetectedState).face_server_running = true :=
  ⟨Reachable.start ⟨false, true, false, []⟩
      (Reachable.init true false false false false), rfl, rfl, rfl⟩

/-- Amended claim C5: `stop_face_server` reaches the Absent state (handle
cleared, running flag false) from every state in which a subprocess handle
exists; when no handle exists — in particular after `start_face_server`
marked the server running because the port was occupied by an externally
started server — the call is a no-op and the running flag keeps its value. -/
theorem stop_clears_only_with_handle (s : ServiceState) :
    (∀ u, s.face_server_process = some u →
      (stop_face_server s).face_server_process = none ∧
      (stop_face_server s).face_server_running = false) ∧
    (s.face_server_process = none → stop_face_server s = s) := by
  constructor
  · intro u hu
    simp [stop_face_server, hu]
  · intro hn
    simp only [stop_face_server, hn]

/-- Witness for the amended C5: stopping with a live handle clears handle
and flag; stopping a fresh service is a no-op. -/
theorem stop_clears_only_with_handle_witness :
    ((stop_face_server handleState).face_server_process = none ∧
      (stop_face_server handleState).face_server_running = false) ∧
    stop_face_server baseState = baseState :=
  ⟨(stop_clears_only_with_handle handleState).1 () rfl,
   (stop_clears_only_with_handle baseState).2 rfl⟩

/-- Claim C6: `set_appearance` on a session whose connectivity check reads
disconnected makes exactly one pre-apply reconnect attempt; if that
reconnect raises, the call returns failure without ever invoking
`face.set_appearance`. -/
theorem set_appearance_single_reconnect (s : ServiceState) (f : FaceSession)
    (env : AppearanceEnv) (hf : s.face = some f) (hio : f.has_io = true)
    (hc : f.io_connected = false) :
    (set_appearance s env).preConnects = 1 ∧
    (env.reconnect_raises = true →
      (set_appearance s env).ok = false ∧
      (set_appearance s env).applyCalls = 0) := by
  have hcond : (f.has_io && !f.io_connected) = true := by rw [hio, hc]; rfl
  simp only [set_appearance, hf]
  rw [if_pos hcond]
  cases hr : env.reconnect_raises with
  | true =>
    rw [if_pos rfl]
    exact ⟨rfl, fun _ => ⟨rfl, rfl⟩⟩
  | false =>
    rw [if_neg (by decide)]
    exact ⟨(applyPhase_fields _ env 1).2, fun hrr => absurd hrr (by decide)⟩

/-- Witness for C6: on a disconnected session with a raising reconnect, the
call makes one reconnect attempt and fails without applying. -/
theorem set_appearance_single_reconnect_witness :
    (set_appearance appearanceState
      ⟨true, ApplyOutcome.ok, trivialInitEnv, true⟩).preConnects = 1 ∧
    ((set_appearance appearanceState
        ⟨true, ApplyOutcome.ok, trivialInitEnv, true⟩).ok = false ∧
      (set_appearance appearanceState
        ⟨true, ApplyOutcome.ok, trivialInitEnv, true⟩).applyCalls = 0) :=
  ⟨(set_appearance_single_reconnect appearanceState disconnectedFace
      ⟨true, ApplyOutcome.ok, trivialInitEnv, true⟩ rfl rfl rfl).1,
   (set_appearance_single_reconnect appearanceState disconnectedFace
      ⟨true, ApplyOutcome.ok, trivialInitEnv, true⟩ rfl rfl rfl).2 rfl⟩

/-- Claim C7: calling `start_face_server` while the running flag is already
set returns success immediately, spawns nothing and changes no state. -/
theorem start_idempotent_when_running (s : ServiceState) (env : StartEnv)
    (h : s.face_server_running = true) :
    start_face_server s env = (s, true) := by
  unfold start_face_server
  rw [if_pos h]

/-- Witness for C7: starting an already-running service is an identity. -/
theorem start_idempotent_when_running_witness :
    start_face_server handleState ⟨false, false, false, []⟩ =
      (handleState, true) :=
  start_idempotent_when_running handleState ⟨false, false, false, []⟩ rfl

/-- Claim C8: for every expression name outside the fixed table
(`happy`/`sad`/`surprised`/`angry`/`neutral`) and every duration,
`set_expression` with a face session present returns failure without
invoking `face.express` — since `express` is the only face-mutating call in
the method, no face state is mutated — and without raising (the Lean
function is total). -/
theorem set_expression_unknown_name (s : ServiceState) (f : FaceSession)
    (name : String) (d : Nat) (e : Bool) (hf : s.face = some f)
    (hn : name ∉ expressions.map Prod.fst) :
    set_expression s name d e = ⟨false, 0⟩ := by
  have hcon : (expressions.map Prod.fst).contains name = false := by simp [hn]
  simp only [set_expression, hf, hcon]

/-- Witness for C8: `setExpression("glitch", 500)` with a session present
fails without an `express` call. -/
theorem set_expression_unknown_name_witness :
    set_expression faceState "glitch" 500 false = ⟨false, 0⟩ :=
  set_expression_unknown_name faceState connectedFace "glitch" 500 false rfl
    (by decide)

/-- Claim C9: `set_expression` with a known name and no face session
distinguishes process-level unavailability from mere absence: with the
PyLips library unavailable it returns success (log-only degraded mode);
with the library available but no session initialised it returns failure. -/
theorem set_expression_no_session (s : ServiceState) (name : String) (d : Nat)
    (e : Bool) (hf : s.face = none)
    (hk : name ∈ expressions.map Prod.fst) :
    (s.pylips_available = false → (set_expression s name d e).ok = true) ∧
    (s.pylips_available = true → (set_expression s name d e).ok = false) := by
  constructor
  · intro hu
    simp [set_expression, hf, hu]
  · intro ha
    simp [set_expression, hf, ha]

/-- Witness for C9: `setExpression("happy", 1000)` succeeds in the
unavailable process and fails in the available-but-uninitialised one. -/
theorem set_expression_no_session_witness :
    (set_expression unavailableState "happy" 1000 false).ok = true ∧
    (set_expression baseState "happy" 1000 false).ok = false :=
  ⟨(set_expression_no_session unavailableState "happy" 1000 false rfl
      (by decide)).1 rfl,
   (set_expression_no_session baseState "happy" 1000 false rfl
      (by decide)).2 rfl⟩

/-- Claim C10: in every reachable state with the PyLips library unavailable
at process level, `set_expression` returns success for every expression
name — including names outside the table — and every duration: the
unknown-name validation is not performed in degraded mode, because no face
session can exist. -/
theorem set_expression_degraded_always_true (s : ServiceState) (name : String)
    (d : Nat) (e : Bool) (hr : Reachable s)
    (hu : s.pylips_available = false) :
    (set_expression s name d e).ok = true := by
  have hf := reachable_no_face_of_unavailable hr hu
  simp [set_expression, hf, hu]

/-- Witness for C10: in the fresh degraded-mode state even the unknown name
`glitch` is acknowledged with success. -/
theorem set_expression_degraded_always_true_witness :
    (set_expression unavailableState "glitch" 500 false).ok = true :=
  set_expression_degraded_always_true unavailableState "glitch" 500 false
    (Reachable.init false false false false false) rfl

end PyLips
